import Mathlib

/-!
# Verification of the deadwood-api task-processing subsystem

Shallow embedding of the core logic of the repository:

* queue tasks, dataset lifecycle statuses and the processing-queue tables
  (`shared` data model, `src/processor/src/processor.py`),
* the task processor `process_task` with its stage functions `process_cog`
  (`src/processor/src/process_cog.py`) and `process_thumbnail`
  (`src/processor/src/process_thumbnail.py`),
* the scheduler loop `background_process` (`src/processor/src/processor.py`),
* the legacy scheduler of `src/src/queue.py` (whose `process_task` deletes the
  queue row in a `finally` block),
* the file-transfer client (`src/processor/src/utils.py`),
* the chunked upload endpoint (`src/api/src/routers/upload.py`,
  `src/api/src/upload/upload.py`),
* the create-processing-task endpoint (`src/api/src/routers/process.py`).

External effects (supabase queries, SSH/SFTP transfers, the raster tools) are
modelled by explicit state (association lists for tables and file systems) and
by environment records of outcome flags: every supabase call and every external
tool call in the source can raise, and each such call is given one flag telling
whether it succeeds.  Each flag corresponds to exactly one call site in the
source, so the embedded control flow mirrors the `try/except` structure of the
Python code.
-/

/-! ## Data model -/

/-- Dataset lifecycle status.  `shared.models.StatusEnum`; the members are the
ones named by the current code base (`pending`, `uploading`, `uploaded`,
`processing`, `errored`, `cog_processing`, `thumbnail_processing`, `processed`,
`audited`, `audit_failed`). -/
inductive Status where
  | pending
  | uploading
  | uploaded
  | processing
  | errored
  | cog_processing
  | thumbnail_processing
  | processed
  | audited
  | audit_failed
deriving DecidableEq, Repr

/-- Task type of a queue task.  `shared.models.TaskTypeEnum`: `cog`,
`thumbnail` or `all` (the `deadwood_segmentation` dispatch in
`process_task` is commented out in the source). -/
inductive TaskType where
  | cog
  | thumbnail
  | all
deriving DecidableEq, Repr

/-- A row of the processing queue, `shared.models.QueueTask`.  Only the fields
read by the processor are modelled (`id`, `dataset_id`, `user_id`,
`task_type`, `is_processing`, `priority`); `build_args`, `current_position`
and `estimated_time` are never read by the processing code. -/
structure QueueTask where
  id : Nat
  dataset_id : Nat
  user_id : String
  task_type : TaskType
  is_processing : Bool
  priority : Nat
deriving DecidableEq, Repr

/-- The mutable shared storage seen by the processor: the queue table, the
datasets table (dataset id paired with its status field; the other dataset
columns are never touched by the processor), and the `cogs` / `thumbnails`
product tables (modelled by the set of dataset ids that own a record, since
the processor only upserts keyed by dataset id). -/
structure DB where
  queue : List QueueTask
  datasets : List (Nat × Status)
  cogs : List Nat
  thumbnails : List Nat
deriving DecidableEq, Repr

/-- Status of a dataset row, as returned by
`client.table(settings.datasets_table).select('*').eq('id', id)`. -/
def datasetStatus (db : DB) (id : Nat) : Option Status :=
  (db.datasets.find? (fun p => p.1 == id)).map Prod.snd

/-- `update_status` of `src/processor/src/utils.py`: update only the status
field of the dataset row.  The source wraps the update in `try/except` and
only logs on failure, so this call never raises. -/
def update_status (db : DB) (id : Nat) (s : Status) : DB :=
  { db with datasets := db.datasets.map (fun p => if p.1 == id then (p.1, s) else p) }

/-- Upsert keyed by `dataset_id` into a product table (`cogs` /
`thumbnails`): one logical record per dataset, inserted at most once. -/
def upsertByDataset (tbl : List Nat) (id : Nat) : List Nat :=
  if tbl.contains id then tbl else id :: tbl

/-- The error taxonomy of `src/processor/src/exceptions.py`. -/
inductive PErr where
  | authenticationError
  | datasetError
  | processingError
  | storageError
  | processorError
deriving DecidableEq, Repr

/-! ## Task processor -/

/-- Outcome flags for one run of a stage function (`process_cog` /
`process_thumbnail`).  Each flag models one fallible call of the source:
`loginOk` — `verify_token` after the stage `login`; `fetchOk` — the dataset
select; `pullOk` — `pull_file_from_storage_server`; `calcOk` — the external
tool (`calculate_cog` / `calculate_thumbnail`); `pushOk` —
`push_file_to_storage_server`; `refreshOk` — the token refresh before the
metadata write; `upsertOk` — the product-table upsert. -/
structure StageEnv where
  loginOk : Bool
  fetchOk : Bool
  pullOk : Bool
  calcOk : Bool
  pushOk : Bool
  refreshOk : Bool
  upsertOk : Bool
deriving DecidableEq, Repr

/-- `process_cog` of `src/processor/src/process_cog.py`.  Returns the storage
state at exit together with the raised error, if any.  Control flow of the
source: login/verify (`AuthenticationError`), fetch dataset (`DatasetError`),
`update_status cog_processing`, then a `try` block around pull / COG
calculation / push (any failure wrapped into `ProcessingError`), then token
refresh (`AuthenticationError`), `cogs` upsert (`DatasetError`), and finally
`update_status processed`. -/
def process_cog (env : StageEnv) (db : DB) (task : QueueTask) : DB × Option PErr :=
  if !env.loginOk then (db, some .authenticationError)
  else
    match datasetStatus db task.dataset_id with
    | none => (db, some .datasetError)
    | some _ =>
      if !env.fetchOk then (db, some .datasetError)
      else
        let db1 := update_status db task.dataset_id .cog_processing
        if !env.pullOk then (db1, some .processingError)
        else if !env.calcOk then (db1, some .processingError)
        else if !env.pushOk then (db1, some .processingError)
        else if !env.refreshOk then (db1, some .authenticationError)
        else if !env.upsertOk then (db1, some .datasetError)
        else
          let db2 := { db1 with cogs := upsertByDataset db1.cogs task.dataset_id }
          (update_status db2 task.dataset_id .processed, none)

/-- `process_thumbnail` of `src/processor/src/process_thumbnail.py`.  Same
shape as `process_cog` with `thumbnail_processing` as the in-progress status
and the `thumbnails` table as the product table. -/
def process_thumbnail (env : StageEnv) (db : DB) (task : QueueTask) : DB × Option PErr :=
  if !env.loginOk then (db, some .authenticationError)
  else
    match datasetStatus db task.dataset_id with
    | none => (db, some .datasetError)
    | some _ =>
      if !env.fetchOk then (db, some .datasetError)
      else
        let db1 := update_status db task.dataset_id .thumbnail_processing
        if !env.pullOk then (db1, some .processingError)
        else if !env.calcOk then (db1, some .processingError)
        else if !env.pushOk then (db1, some .processingError)
        else if !env.refreshOk then (db1, some .authenticationError)
        else if !env.upsertOk then (db1, some .datasetError)
        else
          let db2 := { db1 with thumbnails := upsertByDataset db1.thumbnails task.dataset_id }
          (update_status db2 task.dataset_id .processed, none)

/-- Outcome flags for the calls made directly by `process_task`:
`tokenOk` — the initial `verify_token`; `fetchOk` — the dataset select at the
top of `process_task`; `deleteOk` — the queue-row delete after successful
processing. -/
structure TaskEnv where
  tokenOk : Bool
  fetchOk : Bool
  deleteOk : Bool
deriving DecidableEq, Repr

/-- The `if task.task_type in ['cog', 'all']` block of `process_task`: run
`process_cog`, wrapping any exception into a `ProcessingError`. -/
def run_cog_stage (env : StageEnv) (db : DB) (task : QueueTask) : DB × Option PErr :=
  if task.task_type == .cog || task.task_type == .all then
    ((process_cog env db task).1, (process_cog env db task).2.map (fun _ => PErr.processingError))
  else (db, none)

/-- The `if task.task_type in ['thumbnail', 'all']` block of `process_task`:
run `process_thumbnail`, wrapping any exception into a `ProcessingError`. -/
def run_thumb_stage (env : StageEnv) (db : DB) (task : QueueTask) : DB × Option PErr :=
  if task.task_type == .thumbnail || task.task_type == .all then
    ((process_thumbnail env db task).1, (process_thumbnail env db task).2.map (fun _ => PErr.processingError))
  else (db, none)

/-- The two stage blocks of `process_task` in source order: a failure of the
cog block raises immediately and the thumbnail block is not attempted. -/
def run_stages (cogEnv thumbEnv : StageEnv) (db : DB) (task : QueueTask) : DB × Option PErr :=
  match run_cog_stage cogEnv db task with
  | (db1, some e) => (db1, some e)
  | (db1, none) => run_thumb_stage thumbEnv db1 task

/-- `process_task` of `src/processor/src/processor.py` (lines 72–135).
Verify token; load the dataset; run `process_cog` when `task_type` is `cog`
or `all` (any exception wrapped into `ProcessingError`); run
`process_thumbnail` when `task_type` is `thumbnail` or `all` (likewise);
delete the queue row only after all stages succeeded (a failing delete raises
`ProcessorError`).  The outer `except` clauses only log and re-raise, and the
`finally` clause only removes the local scratch directory, so neither has an
effect on the shared storage state. -/
def process_task (tenv : TaskEnv) (cogEnv thumbEnv : StageEnv) (db : DB)
    (task : QueueTask) : DB × Option PErr :=
  if !tenv.tokenOk then (db, some .authenticationError)
  else if !tenv.fetchOk then (db, some .datasetError)
  else
    match datasetStatus db task.dataset_id with
    | none => (db, some .datasetError)
    | some _ =>
      match run_stages cogEnv thumbEnv db task with
      | (db2, some e) => (db2, some e)
      | (db2, none) =>
        if !tenv.deleteOk then (db2, some .processorError)
        else ({ db2 with queue := db2.queue.filter (fun t => !(t.id == task.id)) }, none)

/-! ## Scheduler loop -/

/-- The environment of one invocation of the scheduler loop
`background_process`.  Each supabase query in the source is a separate
round-trip against shared mutable storage, so the values seen by
`current_running_tasks`, `queue_length` and `get_next_task` are independent
snapshot responses (`running`, `queueLen`, `nextTask`); concurrent mutation
between the queries can make them mutually inconsistent (e.g. a non-zero
queue length followed by an empty `get_next_task` read).  The datasets table
used by the eligibility check and by `process_task`, and the queue mutated by
`process_task`, are the state `db`.  `loginOk` is the `verify_token` after
login; `cap` is `settings.CONCURRENT_TASKS`. -/
structure SchedEnv where
  loginOk : Bool
  running : Nat
  queueLen : Nat
  nextTask : Option QueueTask
  cap : Nat
  db : DB
  tenv : TaskEnv
  cogEnv : StageEnv
  thumbEnv : StageEnv
deriving Repr

/-- How one invocation of `background_process` ended. -/
inductive SchedOutcome where
  /-- the `verify_token` after login failed: `raise Exception(...)`. -/
  | authFailed
  /-- `queued_tasks == 0`: return immediately. -/
  | emptyQueue
  /-- `num_of_running >= settings.CONCURRENT_TASKS`: log and return. -/
  | noSpot
  /-- `is_dataset_uploaded_or_processed(None, token)` evaluated
  `task.dataset_id` on `None`: `AttributeError` propagates. -/
  | attrError
  /-- the datasets select inside `is_dataset_uploaded_or_processed` returned
  no row, so `response.data[0]` raised `IndexError`. -/
  | fetchIndexError
  /-- the head task's dataset is not `uploaded`/`processed`: the loop
  logs and does nothing. -/
  | ineligibleLogged
  /-- `process_task` was invoked on the task, ending with the given error. -/
  | dispatched (t : QueueTask) (e : Option PErr)
deriving DecidableEq, Repr

/-- Result of one invocation of `background_process`: how it ended, the
storage state afterwards, and how many times `get_next_task` was queried. -/
structure SchedResult where
  outcome : SchedOutcome
  db : DB
  fetches : Nat
deriving DecidableEq, Repr

/-- `is_dataset_uploaded_or_processed` of `src/processor/src/processor.py`
(lines 62–69), evaluated when the task is present and its dataset row exists:
true iff the status is `uploaded` or `processed`. -/
def is_dataset_uploaded_or_processed (s : Status) : Bool :=
  s == .uploaded || s == .processed

/-- `background_process` of `src/processor/src/processor.py` (lines 138–193).
Login and verify; read the running count and the queue length; return if the
queue is empty; if the running count is below the cap, fetch the next task
and call `is_dataset_uploaded_or_processed(task, token)` — note that this
call dereferences `task.dataset_id` before the `task is not None` test, so a
`None` task raises `AttributeError` here; dispatch to `process_task` only
when the task exists and its dataset status is eligible, otherwise log; if
the cap is reached, log and return without fetching. -/
def background_process (env : SchedEnv) : SchedResult :=
  if !env.loginOk then ⟨.authFailed, env.db, 0⟩
  else if env.queueLen == 0 then ⟨.emptyQueue, env.db, 0⟩
  else if env.running < env.cap then
    match env.nextTask with
    | none => ⟨.attrError, env.db, 1⟩
    | some t =>
      match datasetStatus env.db t.dataset_id with
      | none => ⟨.fetchIndexError, env.db, 1⟩
      | some s =>
        if is_dataset_uploaded_or_processed s then
          let r := process_task env.tenv env.cogEnv env.thumbEnv env.db t
          ⟨.dispatched t r.2, r.1, 1⟩
        else ⟨.ineligibleLogged, env.db, 1⟩
  else ⟨.noSpot, env.db, 0⟩

/-! ## Legacy scheduler (`src/src/queue.py`) -/

/-- The legacy `process_cog` of `src/src/processing.py`.  Differences from the
current processor that matter here: a failed `verify_token` does `return
HTTPException(...)` — a normal return, not a raise — and there is no
`try/except` wrapping, so any failing call raises directly out of the
function.  Returns the state at exit and whether an exception was raised. -/
def legacy_process_cog (env : StageEnv) (db : DB) (task : QueueTask) : DB × Bool :=
  if !env.loginOk then (db, false)
  else
    match datasetStatus db task.dataset_id with
    | none => (db, true)
    | some _ =>
      let db1 := update_status db task.dataset_id .cog_processing
      if !env.pullOk then (db1, true)
      else if !env.calcOk then (db1, true)
      else if !env.pushOk then (db1, true)
      else if !env.upsertOk then (db1, true)
      else
        let db2 := { db1 with cogs := upsertByDataset db1.cogs task.dataset_id }
        (update_status db2 task.dataset_id .processed, false)

/-- The legacy `process_task` of `src/src/queue.py` (lines 60–84).  Marks the
row `is_processing`, runs the legacy `process_cog` inside `try/except`
(exceptions are logged, not re-raised), and then — in the `finally` clause,
commented "delete the task from the queue in any case" — deletes the queue
row whether or not processing raised.  Returns the state afterwards and
whether a stage raised (and was caught). -/
def legacy_process_task (env : StageEnv) (db : DB) (task : QueueTask) : DB × Bool :=
  let db0 := { db with
    queue := db.queue.map (fun t => if t.id == task.id then { t with is_processing := true } else t) }
  let r := legacy_process_cog env db0 task
  ({ r.1 with queue := r.1.queue.filter (fun t => !(t.id == task.id)) }, r.2)

/-! ## File-transfer client -/

/-- File contents as byte lists. -/
abbrev Bytes := List Nat

/-- A file system (local directory tree or remote SFTP tree): an association
list from path to content. -/
abbrev FS := List (String × Bytes)

/-- Content at a path, `none` when the path does not exist. -/
def fsGet (fs : FS) (p : String) : Option Bytes :=
  (fs.find? (fun e => e.1 == p)).map Prod.snd

/-- Write (create or overwrite) the file at a path. -/
def fsSet (fs : FS) (p : String) (b : Bytes) : FS :=
  (p, b) :: fs.filter (fun e => !(e.1 == p))

/-- Delete the file at a path (no-op when absent). -/
def fsRemove (fs : FS) (p : String) : FS :=
  fs.filter (fun e => !(e.1 == p))

/-- Behaviour of the single `sftp.get` call of a pull: the transfer raises
(`err`), succeeds normally (`ok`), or — the situation the source's post-copy
existence check guards against — returns without the local file being present
afterwards (`okNoFile`). -/
inductive GetOutcome where
  | ok
  | okNoFile
  | err
deriving DecidableEq, Repr

/-- `pull_file_from_storage_server` of `src/processor/src/utils.py` (lines
11–48).  If the local path already exists, log and return without opening any
connection.  Otherwise open one SSH/SFTP session (counted by the second
component), create parent directories, `sftp.get` the remote file, and check
that the local file now exists: a failed check is logged but raises nothing.
The first component is `none` when the call raises (`sftp.get` failed or the
remote path does not exist), otherwise the resulting local file system. -/
def pull_file_from_storage_server (o : GetOutcome) (remoteFs localFs : FS)
    (remote_file_path local_file_path : String) : Option FS × Nat :=
  if (fsGet localFs local_file_path).isSome then (some localFs, 0)
  else
    match o with
    | .err => (none, 1)
    | .okNoFile => (some localFs, 1)
    | .ok =>
      match fsGet remoteFs remote_file_path with
      | none => (none, 1)
      | some content => (some (fsSet localFs local_file_path content), 1)

/-- Behaviour of the `sftp.put` upload of a push: it succeeds, or raises
leaving the temporary remote path either absent or holding an incomplete
piece of the data (`leftover`). -/
inductive PutOutcome where
  | ok
  | fail (leftover : Option Bytes)
deriving DecidableEq, Repr

/-- Environment of one push: `settings.DEV_MODE`, the outcome of the upload,
whether the server-side `posix_rename` succeeds, and whether the
`sftp.remove` cleanup of the temporary artifact succeeds (its `IOError` is
swallowed by the source). -/
structure PushEnv where
  devMode : Bool
  putOut : PutOutcome
  renameOk : Bool
  removeOk : Bool
deriving DecidableEq, Repr

/-- `push_file_to_storage_server` of `src/processor/src/utils.py` (lines
51–103).  In dev mode: a logged no-op.  Otherwise upload the local file to
`<final-path>.tmp`, then atomically rename the temporary path onto the final
path.  On any failure of the upload or of the rename (including a missing
local file, which makes `sftp.put` raise), attempt `sftp.remove` of the
temporary path (ignoring its `IOError`) and re-raise.  Returns the remote
file system afterwards, and `true` iff an exception propagated. -/
def push_file_to_storage_server (env : PushEnv) (localFs remoteFs : FS)
    (local_file_path remote_file_path : String) : FS × Bool :=
  if env.devMode then (remoteFs, false)
  else
    let temp := remote_file_path ++ ".tmp"
    match fsGet localFs local_file_path with
    | none => (if env.removeOk then fsRemove remoteFs temp else remoteFs, true)
    | some content =>
      match env.putOut with
      | .fail leftover =>
        let r1 := match leftover with
          | some lb => fsSet remoteFs temp lb
          | none => remoteFs
        (if env.removeOk then fsRemove r1 temp else r1, true)
      | .ok =>
        let r1 := fsSet remoteFs temp content
        if env.renameOk then (fsSet (fsRemove r1 temp) remote_file_path content, false)
        else (if env.removeOk then fsRemove r1 temp else r1, true)

/-! ## Chunked upload endpoint -/

/-- Geographic bounding box in WGS84: four coordinates.  No claim inspects
coordinate values, so they are modelled as integers. -/
structure BBox where
  left : Int
  bottom : Int
  right : Int
  top : Int
deriving DecidableEq, Repr

/-- The raster-reader view of a byte content: whether a coordinate reference
system is embedded, and the (reprojected) bounds `rasterio` would report.
Both are functions of the file bytes; the reprojection arithmetic is
irrelevant to the claims and stays abstract. -/
structure RasterMeta where
  hasCRS : Bytes → Bool
  boundsOf : Bytes → BBox

/-- `get_transformed_bounds` of `src/api/src/upload/upload.py` (lines 38–46):
`transform_bounds` succeeds when a CRS is embedded; otherwise the `except`
clause logs `No CRS found` and returns `None`. -/
def get_transformed_bounds (renv : RasterMeta) (file : Bytes) : Option BBox :=
  if renv.hasCRS file then some (renv.boundsOf file) else none

/-- Decimal digits of a natural number as bytes, `str(file_size).encode()`. -/
def natBytes (n : Nat) : Bytes := (toString n).toList.map Char.toNat

/-- The byte stream hashed by `get_file_identifier` of
`src/api/src/upload/upload.py` (lines 49–65): the decimal string of the file
size, then the first `sample_size` bytes, then — after
`f.seek(-min(sample_size, file_size), 2)` — the last
`min(sample_size, file_size)` bytes. -/
def get_file_identifier_input (file : Bytes) (sample_size : Nat) : Bytes :=
  natBytes file.length ++ file.take sample_size
    ++ file.drop (file.length - min sample_size file.length)

/-- A dataset row as written by the chunk-upload endpoint; the columns not
set by the endpoint are omitted. -/
structure DatasetRow where
  file_name : String
  sha256 : String
  bbox : Option BBox
  status : Status
  file_size : Nat
deriving DecidableEq, Repr

/-- `create_initial_dataset_entry` of `src/api/src/upload/upload.py` (lines
68–93): build the row with `status = StatusEnum.uploaded`, drop `None`
fields from the insert payload (a `None` bbox therefore becomes a null
column), insert it, and return it. -/
def create_initial_dataset_entry (datasets : List DatasetRow) (file_name : String)
    (file_size : Nat) (sha : String) (bbox : Option BBox) : List DatasetRow × DatasetRow :=
  let row : DatasetRow := ⟨file_name, sha, bbox, .uploaded, file_size⟩
  (datasets ++ [row], row)

/-- State of the archive directory and the datasets table as seen by the
chunk-upload endpoint: the content of the upload target file, and the
dataset rows. -/
structure UploadState where
  file : Bytes
  datasets : List DatasetRow
deriving DecidableEq, Repr

/-- One invocation of `upload_geotiff_chunk` of
`src/api/src/routers/upload.py` (lines 23–87) on chunk `ic.1` with bytes
`ic.2`: chunk 0 is written with mode `wb` (truncate/create), later chunks
with mode `ab` (append); on the final chunk (`chunk_index == chunks_total -
1`) the file is renamed (content preserved), `get_file_identifier` is
computed over it with the hash function `sha`, the bounds are read, and the
dataset entry is created; non-final chunks return an acknowledgement
(`none`). -/
def upload_geotiff_chunk (renv : RasterMeta) (sha : Bytes → String) (sample_size : Nat)
    (chunks_total : Nat) (file_name : String) (st : UploadState) (ic : Nat × Bytes) :
    UploadState × Option DatasetRow :=
  let file1 := if ic.1 == 0 then ic.2 else st.file ++ ic.2
  if ic.1 == chunks_total - 1 then
    let ident := sha (get_file_identifier_input file1 sample_size)
    let bbox := get_transformed_bounds renv file1
    let r := create_initial_dataset_entry st.datasets file_name file1.length ident bbox
    (⟨file1, r.1⟩, some r.2)
  else (⟨file1, st.datasets⟩, none)

/-- A sequence of invocations of the chunk endpoint, collecting the per-chunk
responses. -/
def run_upload (renv : RasterMeta) (sha : Bytes → String) (sample_size : Nat)
    (chunks_total : Nat) (file_name : String) (st : UploadState) :
    List (Nat × Bytes) → UploadState × List (Option DatasetRow)
  | [] => (st, [])
  | ic :: rest =>
    let r := upload_geotiff_chunk renv sha sample_size chunks_total file_name st ic
    let rr := run_upload renv sha sample_size chunks_total file_name r.1 rest
    (rr.1, r.2 :: rr.2)

/-- The chunks of an in-order upload paired with their 0-based indices. -/
def enumChunks (cs : List Bytes) : List (Nat × Bytes) := (List.range cs.length).zip cs

/-- The pure write effect of a sequence of chunk invocations on the upload
target file: chunk 0 truncates, later chunks append. -/
def writeFold (f : Bytes) (l : List (Nat × Bytes)) : Bytes :=
  l.foldl (fun acc ic => if ic.1 == 0 then ic.2 else acc ++ ic.2) f

/-! ## Create-processing-task endpoint -/

/-- A row of the queue-position view (`settings.queue_position_table`) for a
given task id: the computed position and the estimated wait time, which the
view may leave null.  The wait time is a numeric column never computed with
here, modelled as an integer. -/
structure PositionRow where
  current_position : Int
  estimated_time : Option Int
deriving DecidableEq, Repr

/-- Modelled from the spec: `shared/models.py` is not under `src/` (only its
callers are), so the `QueueTask` pydantic response object of the create-task
endpoint is modelled from the spec's QueueTask attribute list, restricted to
the fields the endpoint itself sets in both of its return branches, and with
construction modelled as total. -/
structure QueueTaskResponse where
  id : Nat
  dataset_id : Nat
  current_position : Int
  estimated_time : Int
  is_processing : Bool
  priority : Nat
deriving DecidableEq, Repr

/-- Environment of one create-task request: whether `verify_token` accepts,
whether the dataset select succeeds and finds a row, whether the queue insert
succeeds (returning the new task id), and whether the position-view select
succeeds and what row it returns for the new id. -/
structure CreateEnv where
  tokenOk : Bool
  fetchOk : Bool
  datasetFound : Bool
  insertOk : Bool
  posFetchOk : Bool
  positionRow : Option PositionRow
  newTaskId : Nat
deriving DecidableEq, Repr

/-- What the endpoint hands back: an `HTTPException` with a status code, or
the queued task. -/
inductive CreateResult where
  | http (code : Nat)
  | task (t : QueueTaskResponse)
deriving DecidableEq, Repr

/-- `create_processing_task` of `src/api/src/routers/process.py` (lines
26–121).  Verify token (`401`); load the dataset (`500` on query failure,
`404` when absent); insert the task (priority 2, `is_processing = False`;
`500` on failure); then read the position view for the new id: if a row
exists, return it with `estimated_time` defaulted to `0` when null
(`task_data.get('estimated_time') or 0.0`); if the view has no row yet,
return the task with `current_position = -1` and `estimated_time = 0`;
`500` when the view query itself fails. -/
def create_processing_task (env : CreateEnv) (dataset_id : Nat) : CreateResult :=
  if !env.tokenOk then .http 401
  else if !env.fetchOk then .http 500
  else if !env.datasetFound then .http 404
  else if !env.insertOk then .http 500
  else if !env.posFetchOk then .http 500
  else
    match env.positionRow with
    | some row =>
      .task ⟨env.newTaskId, dataset_id, row.current_position,
        row.estimated_time.getD 0, false, 2⟩
    | none => .task ⟨env.newTaskId, dataset_id, -1, 0, false, 2⟩

/-! ## Concrete fixtures used by counterexamples and witnesses -/

/-- A stage environment in which every external call succeeds. -/
def okStage : StageEnv := ⟨true, true, true, true, true, true, true⟩

/-- A stage environment in which the raster conversion tool raises and
everything else succeeds. -/
def calcFailStage : StageEnv := ⟨true, true, true, false, true, true, true⟩

/-- A `process_task` environment in which every direct call succeeds. -/
def okTask : TaskEnv := ⟨true, true, true⟩

/-- A queued `cog` task for dataset 7. -/
def sampleTask : QueueTask := ⟨1, 7, "u1", .cog, false, 2⟩

/-- A store holding `sampleTask` and its dataset in status `uploaded`. -/
def sampleDB : DB := ⟨[sampleTask], [(7, .uploaded)], [], []⟩

/-- A queued `cog` task for dataset 8, whose dataset is still `pending`. -/
def pendingTask : QueueTask := ⟨2, 8, "u2", .cog, false, 2⟩

/-- A store holding `pendingTask` and its dataset in status `pending`. -/
def schedDB : DB := ⟨[pendingTask], [(8, .pending)], [], []⟩

/-- A raster reader that finds a CRS in every file. -/
def sampleRaster : RasterMeta := ⟨fun _ => true, fun _ => ⟨0, 0, 1, 1⟩⟩

/-- A sample content-hash function. -/
def sampleSha : Bytes → String := fun b => toString (b.foldl (· + ·) 0)

/-- A raster reader that finds no CRS in any file. -/
def noCrsRaster : RasterMeta := ⟨fun _ => false, fun _ => ⟨0, 0, 0, 0⟩⟩

/-- A constant content-hash function. -/
def constSha : Bytes → String := fun _ => "h"

/-! ## Helper lemmas: processor embedding -/

/-- `update_status` touches only the datasets table. -/
@[simp] theorem update_status_queue (db : DB) (i : Nat) (s : Status) :
    (update_status db i s).queue = db.queue := rfl

/-- `process_cog` never touches the queue table. -/
theorem process_cog_queue (env : StageEnv) (db : DB) (task : QueueTask) :
    (process_cog env db task).1.queue = db.queue := by
  rcases env with ⟨l, f, pl, c, ps, r, u⟩
  cases l <;> cases f <;> cases pl <;> cases c <;> cases ps <;> cases r <;> cases u <;>
    cases h : datasetStatus db task.dataset_id <;>
      simp [process_cog, update_status, h]

/-- `process_thumbnail` never touches the queue table. -/
theorem process_thumbnail_queue (env : StageEnv) (db : DB) (task : QueueTask) :
    (process_thumbnail env db task).1.queue = db.queue := by
  rcases env with ⟨l, f, pl, c, ps, r, u⟩
  cases l <;> cases f <;> cases pl <;> cases c <;> cases ps <;> cases r <;> cases u <;>
    cases h : datasetStatus db task.dataset_id <;>
      simp [process_thumbnail, update_status, h]

/-- The stage blocks of `process_task` never touch the queue table. -/
theorem run_stages_queue (ce te : StageEnv) (db : DB) (task : QueueTask) :
    (run_stages ce te db task).1.queue = db.queue := by
  unfold run_stages
  cases h : run_cog_stage ce db task with
  | mk db1 e =>
    have h1 : db1.queue = db.queue := by
      have := congrArg (fun r => r.1.queue) h
      simp only at this
      rw [← this]
      unfold run_cog_stage
      split
      · exact process_cog_queue ce db task
      · rfl
    cases e with
    | some e => simpa using h1
    | none =>
      have h2 : (run_thumb_stage te db1 task).1.queue = db1.queue := by
        unfold run_thumb_stage
        split
        · exact process_thumbnail_queue te db1 task
        · rfl
      simpa [h2] using h1

/-- Updating the status of dataset `i` rewrites its status field and nothing
else: looking `i` up afterwards yields the new status whenever the row
existed. -/
theorem find_map_update (l : List (Nat × Status)) (i : Nat) (s : Status) :
    ((l.map (fun p => if p.1 == i then (p.1, s) else p)).find? (fun p => p.1 == i)).map Prod.snd
      = ((l.find? (fun p => p.1 == i)).map Prod.snd).map (fun _ => s) := by
  induction l with
  | nil => rfl
  | cons a t ih =>
    cases hb : (a.1 == i)
    · simpa [List.find?, hb] using ih
    · simp [List.find?, hb]

/-- `datasetStatus` after `update_status` on the same id. -/
theorem datasetStatus_update_self (db : DB) (i : Nat) (s : Status) :
    datasetStatus (update_status db i s) i = (datasetStatus db i).map (fun _ => s) := by
  unfold datasetStatus update_status
  simpa using find_map_update db.datasets i s

/-- The queue after `process_task`: unchanged when the call raised, the
task's rows removed when it returned normally. -/
theorem process_task_queue_spec :
    ∀ (tenv : TaskEnv) (ce te : StageEnv) (db : DB) (task : QueueTask),
      ((process_task tenv ce te db task).2 ≠ none →
        (process_task tenv ce te db task).1.queue = db.queue) ∧
      ((process_task tenv ce te db task).2 = none →
        (process_task tenv ce te db task).1.queue
          = db.queue.filter (fun t => !(t.id == task.id))) := by
  intro tenv ce te db task
  unfold process_task
  split
  · exact ⟨fun _ => rfl, fun h => absurd h (by simp)⟩
  · split
    · exact ⟨fun _ => rfl, fun h => absurd h (by simp)⟩
    · split
      · exact ⟨fun _ => rfl, fun h => absurd h (by simp)⟩
      · split
        · next db2 e heq =>
          have hq : db2.queue = db.queue := by
            have h1 := run_stages_queue ce te db task
            rw [heq] at h1
            exact h1
          exact ⟨fun _ => hq, fun h => absurd h (by simp)⟩
        · next db2 heq =>
          have hq : db2.queue = db.queue := by
            have h1 := run_stages_queue ce te db task
            rw [heq] at h1
            exact h1
          split
          · exact ⟨fun _ => hq, fun h => absurd h (by simp)⟩
          · exact ⟨fun h => absurd rfl h, fun _ => by simpa using hq ▸ rfl⟩

/-! ## Claims about the task processor -/

/-- Claim C1, counterexample: in the legacy scheduler's `process_task`
(`src/src/queue.py` lines 60–84), a processing attempt in which a stage
raises (here: the COG tool fails on `sampleTask`) still deletes the task row
from the queue — the `finally` clause removes it "in any case", so the row
does **not** still exist in the queue after the failed attempt. -/
theorem legacy_failed_task_still_dequeued :
    (legacy_process_task calcFailStage sampleDB sampleTask).2 = true ∧
    (legacy_process_task calcFailStage sampleDB sampleTask).1.queue = [] := by decide

/-- Claim C1 (amended): for the current processor's `process_task`
(`src/processor/src/processor.py`), the task row is deleted from the queue
iff the processing attempt fully succeeds: when any stage raises, the row
still exists in the queue afterwards, and when all stages (including the
final delete) succeed, no row with the task's id remains.  (The legacy
scheduler `src/src/queue.py` instead deletes the row in a `finally` block
even when processing raised.) -/
theorem process_task_dequeues_iff_success :
    ∀ (tenv : TaskEnv) (ce te : StageEnv) (db : DB) (task : QueueTask),
      task ∈ db.queue →
      (((process_task tenv ce te db task).2 = none →
        ∀ t ∈ (process_task tenv ce te db task).1.queue, t.id ≠ task.id) ∧
       (∀ e, (process_task tenv ce te db task).2 = some e →
        task ∈ (process_task tenv ce te db task).1.queue)) := by
  intro tenv ce te db task hmem
  constructor
  · intro h t ht
    have hq := (process_task_queue_spec tenv ce te db task).2 h
    rw [hq] at ht
    have hf := List.of_mem_filter ht
    simpa using hf
  · intro e he
    have hq := (process_task_queue_spec tenv ce te db task).1 (by simp [he])
    rw [hq]
    exact hmem

/-- Claim C1, witness: the amended theorem applied to a concrete store with
one queued task. -/
theorem process_task_dequeues_iff_success_witness :
    sampleTask ∈ sampleDB.queue ∧
    (((process_task okTask okStage okStage sampleDB sampleTask).2 = none →
      ∀ t ∈ (process_task okTask okStage okStage sampleDB sampleTask).1.queue,
        t.id ≠ sampleTask.id) ∧
     (∀ e, (process_task okTask okStage okStage sampleDB sampleTask).2 = some e →
      sampleTask ∈ (process_task okTask okStage okStage sampleDB sampleTask).1.queue)) :=
  ⟨by decide,
   process_task_dequeues_iff_success okTask okStage okStage sampleDB sampleTask (by decide)⟩

/-- Claim C2, counterexample: when the COG stage raises on `sampleTask`, the
processing attempt ends with a `ProcessingError`, yet the dataset's status
field afterwards is `cog_processing` — not `errored`.  No code path of the
dispatched task types sets `errored` (only the commented-out deadwood
segmentation dispatch would). -/
theorem failed_cog_task_status_not_errored :
    (process_task okTask calcFailStage okStage sampleDB sampleTask).2
      = some PErr.processingError ∧
    datasetStatus (process_task okTask calcFailStage okStage sampleDB sampleTask).1
      sampleTask.dataset_id = some Status.cog_processing ∧
    datasetStatus (process_task okTask calcFailStage okStage sampleDB sampleTask).1
      sampleTask.dataset_id ≠ some Status.errored := by decide

/-- Claim C2 (amended): when the processing stage of a queue task raises
(pull, external tool, or push failing inside the stage's `try` block), the
attempt ends with a `ProcessingError` and the referenced dataset's status
field afterwards equals the in-progress status set at the start of the
failing stage — `cog_processing` for a `cog` task, `thumbnail_processing`
for a `thumbnail` task — not `errored`. -/
theorem process_task_failure_keeps_stage_status :
    ∀ (tenv : TaskEnv) (ce te : StageEnv) (db : DB) (task : QueueTask) (s0 : Status),
      tenv.tokenOk = true → tenv.fetchOk = true →
      datasetStatus db task.dataset_id = some s0 →
      ((task.task_type = .cog → ce.loginOk = true → ce.fetchOk = true →
        (ce.pullOk = false ∨ ce.calcOk = false ∨ ce.pushOk = false) →
        (process_task tenv ce te db task).2 = some PErr.processingError ∧
        datasetStatus (process_task tenv ce te db task).1 task.dataset_id
          = some Status.cog_processing) ∧
       (task.task_type = .thumbnail → te.loginOk = true → te.fetchOk = true →
        (te.pullOk = false ∨ te.calcOk = false ∨ te.pushOk = false) →
        (process_task tenv ce te db task).2 = some PErr.processingError ∧
        datasetStatus (process_task tenv ce te db task).1 task.dataset_id
          = some Status.thumbnail_processing)) := by
  intro tenv ce te db task s0 htok htf hds
  constructor
  · intro htt hl hf hfail
    rcases ce with ⟨cl, cf, cp, cc, cps, cr, cu⟩
    simp only at hl hf
    subst hl hf
    cases hp : cp <;> cases hc : cc <;> cases hps : cps <;>
      simp_all [process_task, run_stages, run_cog_stage, run_thumb_stage, process_cog,
        htt, datasetStatus_update_self, hds]
  · intro htt hl hf hfail
    rcases te with ⟨tl, tf, tp, tc, tps, tr, tu⟩
    simp only at hl hf
    subst hl hf
    cases hp : tp <;> cases hc : tc <;> cases hps : tps <;>
      simp_all [process_task, run_stages, run_cog_stage, run_thumb_stage, process_thumbnail,
        htt, datasetStatus_update_self, hds]

/-- Claim C2, witness: the amended theorem applied to a concrete failing COG
attempt. -/
theorem process_task_failure_keeps_stage_status_witness :
    (process_task okTask calcFailStage okStage sampleDB sampleTask).2
      = some PErr.processingError ∧
    datasetStatus (process_task okTask calcFailStage okStage sampleDB sampleTask).1
      sampleTask.dataset_id = some Status.cog_processing :=
  (process_task_failure_keeps_stage_status okTask calcFailStage okStage sampleDB sampleTask
    Status.uploaded rfl rfl (by decide)).1 rfl rfl rfl (Or.inr (Or.inl rfl))

/-! ## Claims about the scheduler loop -/

/-- Claim C3: in an invocation of the scheduler loop that reaches the fetch
(login ok, non-empty queue reading, running count below the cap) and obtains
a head-of-queue task whose dataset status is neither `uploaded` nor
`processed` (for example `pending`), `background_process` ends at the logging
branch: nothing is dispatched to `process_task`, the storage state — hence
the queue — is left unchanged, and the outcome is never `dispatched`. -/
theorem scheduler_eligibility_gate :
    ∀ (env : SchedEnv) (t : QueueTask) (s : Status),
      env.loginOk = true → env.queueLen ≠ 0 → env.running < env.cap →
      env.nextTask = some t → datasetStatus env.db t.dataset_id = some s →
      s ≠ Status.uploaded → s ≠ Status.processed →
      (background_process env = ⟨SchedOutcome.ineligibleLogged, env.db, 1⟩ ∧
       ∀ (t' : QueueTask) (e : Option PErr),
         (background_process env).outcome ≠ SchedOutcome.dispatched t' e) := by
  intro env t s hlogin hql hrun hnext hds hs1 hs2
  have hq : (env.queueLen == 0) = false := by simpa using hql
  have helig : is_dataset_uploaded_or_processed s = false := by
    cases s <;> simp_all [is_dataset_uploaded_or_processed]
  have hmain : background_process env = ⟨SchedOutcome.ineligibleLogged, env.db, 1⟩ := by
    simp [background_process, hlogin, hq, hrun, hnext, hds, helig]
  exact ⟨hmain, fun t' e => by rw [hmain]; simp⟩

/-- Claim C3, witness: the gate theorem applied to a queued task whose
dataset is still `pending`. -/
theorem scheduler_eligibility_gate_witness :
    background_process ⟨true, 0, 1, some pendingTask, 2, schedDB, okTask, okStage, okStage⟩
        = ⟨SchedOutcome.ineligibleLogged, schedDB, 1⟩ ∧
    ∀ (t' : QueueTask) (e : Option PErr),
      (background_process
        ⟨true, 0, 1, some pendingTask, 2, schedDB, okTask, okStage, okStage⟩).outcome
        ≠ SchedOutcome.dispatched t' e :=
  scheduler_eligibility_gate _ pendingTask Status.pending rfl (by decide) (by decide) rfl
    (by decide) (by decide) (by decide)

/-- Claim C4: an invocation of the scheduler loop that reads a non-empty
queue while the running count has reached the configured concurrency cap
fetches no task (`fetches = 0`), dispatches nothing, and returns after
logging (`noSpot`); an invocation that reads an empty queue returns
immediately (`emptyQueue`), also without fetching or dispatching — in both
cases the storage state is untouched. -/
theorem scheduler_cap_and_empty :
    ∀ (env : SchedEnv), env.loginOk = true →
      ((env.queueLen ≠ 0 → env.cap ≤ env.running →
        background_process env = ⟨SchedOutcome.noSpot, env.db, 0⟩) ∧
       (env.queueLen = 0 →
        background_process env = ⟨SchedOutcome.emptyQueue, env.db, 0⟩)) := by
  intro env hlogin
  constructor
  · intro hql hcap
    have hq : (env.queueLen == 0) = false := by simpa using hql
    have hlt : ¬ env.running < env.cap := not_lt.mpr hcap
    simp [background_process, hlogin, hq, hlt]
  · intro hql
    simp [background_process, hlogin, hql]

/-- Claim C4, witness: the cap branch at `running = 2 = cap` with a non-empty
queue reading, and the empty-queue branch. -/
theorem scheduler_cap_and_empty_witness :
    (background_process ⟨true, 2, 3, none, 2, schedDB, okTask, okStage, okStage⟩
      = ⟨SchedOutcome.noSpot, schedDB, 0⟩) ∧
    (background_process ⟨true, 0, 0, none, 2, schedDB, okTask, okStage, okStage⟩
      = ⟨SchedOutcome.emptyQueue, schedDB, 0⟩) :=
  ⟨(scheduler_cap_and_empty _ rfl).1 (by decide) (by decide),
   (scheduler_cap_and_empty _ rfl).2 rfl⟩

/-- Claim C10: `background_process` evaluates
`is_dataset_uploaded_or_processed(task, token)` — which dereferences
`task.dataset_id` — before testing `task is not None`; therefore an
invocation with login ok, a positive queue-length reading, a running count
below the cap, and a `get_next_task` returning no row ends in an
`AttributeError` instead of reaching the logging branch. -/
theorem scheduler_none_task_attribute_error :
    ∀ (env : SchedEnv), env.loginOk = true → env.queueLen ≠ 0 →
      env.running < env.cap → env.nextTask = none →
      background_process env = ⟨SchedOutcome.attrError, env.db, 1⟩ := by
  intro env hlogin hql hrun hnext
  have hq : (env.queueLen == 0) = false := by simpa using hql
  simp [background_process, hlogin, hq, hrun, hnext]

/-- Claim C10, witness: a concrete invocation in which the queue length read
1 but `get_next_task` found nothing. -/
theorem scheduler_none_task_attribute_error_witness :
    background_process ⟨true, 0, 1, none, 2, schedDB, okTask, okStage, okStage⟩
      = ⟨SchedOutcome.attrError, schedDB, 1⟩ :=
  scheduler_none_task_attribute_error _ rfl (by decide) (by decide) rfl

/-! ## Helper lemmas: file-system model -/

/-- Reading back a fresh write. -/
theorem fsGet_fsSet_self (fs : FS) (p : String) (b : Bytes) :
    fsGet (fsSet fs p b) p = some b := by
  simp [fsGet, fsSet, List.find?_cons]

/-- Dropping the entries of one path does not change lookups of another. -/
theorem find_filter_ne (fs : FS) (p q : String) (h : q ≠ p) :
    (fs.filter (fun e => !(e.1 == p))).find? (fun e => e.1 == q)
      = fs.find? (fun e => e.1 == q) := by
  induction fs with
  | nil => rfl
  | cons a t ih =>
    cases hap : (a.1 == p) <;> cases haq : (a.1 == q)
    · simp [List.filter_cons, List.find?_cons, hap, haq, ih]
    · simp [List.filter_cons, List.find?_cons, hap, haq]
    · simp [List.filter_cons, List.find?_cons, hap, haq, ih]
    · exfalso
      exact h ((by simpa using haq : a.1 = q) ▸ (by simpa using hap : a.1 = p))

/-- A write does not change lookups of another path. -/
theorem fsGet_fsSet_ne (fs : FS) (p q : String) (b : Bytes) (h : q ≠ p) :
    fsGet (fsSet fs p b) q = fsGet fs q := by
  have hb : (p == q) = false := by
    simp only [beq_eq_false_iff_ne]
    exact fun hh => h hh.symm
  simp [fsGet, fsSet, List.find?_cons, hb, find_filter_ne fs p q h]

/-- A removed path no longer resolves. -/
theorem fsGet_fsRemove_self (fs : FS) (p : String) :
    fsGet (fsRemove fs p) p = none := by
  have hnone : (fs.filter (fun e => !(e.1 == p))).find? (fun e => e.1 == p) = none := by
    rw [List.find?_eq_none]
    intro x hx
    have := List.of_mem_filter hx
    simpa using this
  simp [fsGet, fsRemove, hnone]

/-- A removal does not change lookups of another path. -/
theorem fsGet_fsRemove_ne (fs : FS) (p q : String) (h : q ≠ p) :
    fsGet (fsRemove fs p) q = fsGet fs q := by
  simp [fsGet, fsRemove, find_filter_ne fs p q h]

/-- The temporary upload path differs from the final path. -/
theorem tmp_path_ne (s : String) : s ++ ".tmp" ≠ s := by
  intro h
  have hl := congrArg String.length h
  rw [String.length_append] at hl
  simp at hl
  exact absurd hl (by decide)

/-- A pull opens at most one connection. -/
theorem pull_connections_le_one (o : GetOutcome) (rfs lfs : FS) (rp lp : String) :
    (pull_file_from_storage_server o rfs lfs rp lp).2 ≤ 1 := by
  unfold pull_file_from_storage_server
  split
  · simp
  · cases o
    · cases fsGet rfs rp <;> simp
    · simp
    · simp

/-! ## Claims about the file-transfer client -/

/-- Claim C5: outside dev mode, a push never leaves the final remote path
partially written and cleans up its temporary artifact.  Precisely: (1) the
push returns without raising iff the upload to `<final>.tmp` and the
server-side rename both succeed (on a readable local file) — any failure of
either propagates; (2) after a failed push the final path's content is
exactly what it was before, and, when the cleanup `sftp.remove` succeeds,
the temporary path is gone; (3) after a successful push the final path holds
exactly the local file's bytes and the temporary artifact no longer exists
remotely. -/
theorem push_atomic :
    ∀ (env : PushEnv) (lfs rfs : FS) (lp rp : String),
      env.devMode = false →
      (((push_file_to_storage_server env lfs rfs lp rp).2 = false ↔
         env.putOut = .ok ∧ env.renameOk = true ∧ (fsGet lfs lp).isSome = true) ∧
       ((push_file_to_storage_server env lfs rfs lp rp).2 = true →
         fsGet (push_file_to_storage_server env lfs rfs lp rp).1 rp = fsGet rfs rp ∧
         (env.removeOk = true →
           fsGet (push_file_to_storage_server env lfs rfs lp rp).1 (rp ++ ".tmp") = none)) ∧
       ((push_file_to_storage_server env lfs rfs lp rp).2 = false →
         fsGet (push_file_to_storage_server env lfs rfs lp rp).1 rp = fsGet lfs lp ∧
         fsGet (push_file_to_storage_server env lfs rfs lp rp).1 (rp ++ ".tmp") = none)) := by
  intro env lfs rfs lp rp hdev
  have hne : rp ≠ rp ++ ".tmp" := fun h => tmp_path_ne rp h.symm
  have htne := tmp_path_ne rp
  rcases env with ⟨dm, po, ren, rem⟩
  simp only at hdev
  subst hdev
  cases hloc : fsGet lfs lp with
  | none =>
    cases rem <;>
      simp [push_file_to_storage_server, hloc, fsGet_fsRemove_self, fsGet_fsRemove_ne _ _ _ hne]
  | some content =>
    cases po with
    | fail leftover =>
      cases leftover with
      | none =>
        cases rem <;>
          simp [push_file_to_storage_server, hloc, fsGet_fsRemove_self,
            fsGet_fsRemove_ne _ _ _ hne]
      | some lb =>
        cases rem <;>
          simp [push_file_to_storage_server, hloc, fsGet_fsRemove_self,
            fsGet_fsRemove_ne _ _ _ hne, fsGet_fsSet_ne _ _ _ _ hne]
    | ok =>
      cases ren with
      | true =>
        simp [push_file_to_storage_server, hloc, fsGet_fsSet_self,
          fsGet_fsSet_ne _ _ _ _ htne, fsGet_fsRemove_self]
      | false =>
        cases rem <;>
          simp [push_file_to_storage_server, hloc, fsGet_fsRemove_self,
            fsGet_fsRemove_ne _ _ _ hne, fsGet_fsSet_ne _ _ _ _ hne]

/-- Claim C5, witness: a successful concrete push — the final path holds the
local bytes and the temporary artifact is gone. -/
theorem push_atomic_witness :
    fsGet (push_file_to_storage_server ⟨false, .ok, true, true⟩ [("l", [9])] [] "l" "r").1 "r"
      = fsGet [("l", [9])] "l" ∧
    fsGet (push_file_to_storage_server ⟨false, .ok, true, true⟩ [("l", [9])] [] "l" "r").1
      ("r" ++ ".tmp") = none :=
  (push_atomic ⟨false, .ok, true, true⟩ [("l", [9])] [] "l" "r" rfl).2.2 (by decide)

/-- Claim C6: pull is idempotent on the local path.  (1) When the local path
already exists the pull returns immediately: no connection is opened and the
local file system — in particular the local file — is unchanged.  (2) After a
pull that returned normally and left the local file in place, a second pull
with the same arguments opens no connection and changes nothing, so the two
calls together perform network I/O at most once.  (3) A pull whose copy
returns without the local file existing afterwards (the post-copy
verification failure) is logged but still returns normally — it does not
raise. -/
theorem pull_idempotent :
    (∀ (o : GetOutcome) (rfs lfs : FS) (rp lp : String),
      (fsGet lfs lp).isSome = true →
      pull_file_from_storage_server o rfs lfs rp lp = (some lfs, 0)) ∧
    (∀ (o o2 : GetOutcome) (rfs lfs lfs1 : FS) (rp lp : String) (n1 : Nat),
      pull_file_from_storage_server o rfs lfs rp lp = (some lfs1, n1) →
      (fsGet lfs1 lp).isSome = true →
      pull_file_from_storage_server o2 rfs lfs1 rp lp = (some lfs1, 0) ∧ n1 + 0 ≤ 1) ∧
    (∀ (rfs lfs : FS) (rp lp : String),
      fsGet lfs lp = none →
      pull_file_from_storage_server .okNoFile rfs lfs rp lp = (some lfs, 1)) := by
  refine ⟨?_, ?_, ?_⟩
  · intro o rfs lfs rp lp hex
    unfold pull_file_from_storage_server
    rw [if_pos hex]
  · intro o o2 rfs lfs lfs1 rp lp n1 h1 hex
    constructor
    · unfold pull_file_from_storage_server
      rw [if_pos hex]
    · have hle := pull_connections_le_one o rfs lfs rp lp
      rw [h1] at hle
      simpa using hle
  · intro rfs lfs rp lp hnone
    unfold pull_file_from_storage_server
    rw [if_neg (by simp [hnone])]

/-- Claim C6, witness: each part of the idempotence theorem at a concrete
file system — an existing local file short-circuits, a successful first pull
makes the second one free, and the verification-failure path returns
normally. -/
theorem pull_idempotent_witness :
    (pull_file_from_storage_server .ok [("r", [1])] [("l", [2])] "r" "l"
       = (some [("l", [2])], 0)) ∧
    ((pull_file_from_storage_server .err [("r", [1])] [("l", [1])] "r" "l"
       = (some [("l", [1])], 0)) ∧ 1 + 0 ≤ 1) ∧
    (pull_file_from_storage_server .okNoFile [("r", [1])] [] "r" "l" = (some [], 1)) :=
  ⟨pull_idempotent.1 .ok [("r", [1])] [("l", [2])] "r" "l" (by decide),
   pull_idempotent.2.1 .ok .err [("r", [1])] [] [("l", [1])] "r" "l" 1 (by decide) (by decide),
   pull_idempotent.2.2 [("r", [1])] [] "r" "l" rfl⟩

/-! ## Helper lemmas: chunked upload -/

/-- Splitting a chunk sequence splits the run. -/
theorem run_upload_append (renv : RasterMeta) (sha : Bytes → String) (n total : Nat)
    (fname : String) (st : UploadState) (l1 l2 : List (Nat × Bytes)) :
    run_upload renv sha n total fname st (l1 ++ l2)
      = ((run_upload renv sha n total fname
            (run_upload renv sha n total fname st l1).1 l2).1,
         (run_upload renv sha n total fname st l1).2
           ++ (run_upload renv sha n total fname
                 (run_upload renv sha n total fname st l1).1 l2).2) := by
  induction l1 generalizing st with
  | nil => simp [run_upload]
  | cons ic rest ih => simp [run_upload, ih]

/-- A run over chunks none of which is the final one only writes the file:
each invocation acknowledges with `none` and the datasets are untouched. -/
theorem run_upload_no_final (renv : RasterMeta) (sha : Bytes → String) (n total : Nat)
    (fname : String) :
    ∀ (l : List (Nat × Bytes)) (st : UploadState),
      (∀ p ∈ l, (p.1 == total - 1) = false) →
      run_upload renv sha n total fname st l
        = (⟨writeFold st.file l, st.datasets⟩, l.map (fun _ => none)) := by
  intro l
  induction l with
  | nil => intro st _; simp [run_upload, writeFold]
  | cons ic rest ih =>
    intro st hl
    have hic := hl ic (List.mem_cons_self ic rest)
    have hrest : ∀ p ∈ rest, (p.1 == total - 1) = false :=
      fun p hp => hl p (List.mem_cons_of_mem ic hp)
    simp only [run_upload, upload_geotiff_chunk, hic, Bool.false_eq_true, if_false]
    rw [ih _ hrest]
    simp [writeFold]

/-- Appending writes with nonzero indices is concatenation. -/
theorem writeFold_flatten :
    ∀ (l : List (Nat × Bytes)) (acc : Bytes),
      (∀ p ∈ l, (p.1 == 0) = false) →
      writeFold acc l = acc ++ (l.map Prod.snd).flatten := by
  intro l
  induction l with
  | nil => intro acc _; simp [writeFold]
  | cons ic rest ih =>
    intro acc hl
    have hic := hl ic (List.mem_cons_self ic rest)
    have hrest : ∀ p ∈ rest, (p.1 == 0) = false :=
      fun p hp => hl p (List.mem_cons_of_mem ic hp)
    simp only [writeFold, List.foldl_cons, hic, Bool.false_eq_true, if_false]
    rw [show (rest.foldl (fun acc ic => if ic.1 == 0 then ic.2 else acc ++ ic.2)
        (acc ++ ic.2)) = writeFold (acc ++ ic.2) rest from rfl, ih _ hrest]
    simp

/-- Writing an in-order indexed chunk sequence yields its concatenation:
chunk 0 truncates (discarding any previous content), the rest append. -/
theorem writeFold_enum (front : List Bytes) (acc : Bytes) :
    writeFold acc ((List.range front.length).zip front)
      = if front.isEmpty then acc else front.flatten := by
  cases front with
  | nil => simp [writeFold]
  | cons c0 rest =>
    simp only [List.isEmpty_cons, List.length_cons]
    rw [List.range_succ_eq_map rest.length]
    simp only [List.zip_cons_cons]
    have hstep : writeFold acc ((0, c0) :: ((List.range rest.length).map Nat.succ).zip rest)
        = writeFold c0 (((List.range rest.length).map Nat.succ).zip rest) := by
      simp [writeFold]
    have hz : ∀ p ∈ ((List.range rest.length).map Nat.succ).zip rest, (p.1 == 0) = false := by
      intro p hp
      have h1 : p.1 ∈ (List.range rest.length).map Nat.succ := by
        rcases p with ⟨i, b⟩
        exact (List.of_mem_zip hp).1
      rcases List.mem_map.mp h1 with ⟨j, _, hj⟩
      rw [← hj]
      simp
    rw [hstep, writeFold_flatten _ c0 hz, List.map_snd_zip _ _ (by simp)]
    simp

/-! ## Claims about the chunked upload endpoint -/

/-- Claim C7: for every in-order sequence of chunks `0 .. chunk_count - 1`
(chunk 0 written by truncating/creating, later chunks by appending), the
assembled file's bytes equal the concatenation `F` of the chunks exactly, and
the content hash stored on the dataset returned by the final chunk equals the
hash of `F` computed directly over `F` (via the same sampled
`get_file_identifier` stream). -/
theorem chunk_reassembly :
    ∀ (renv : RasterMeta) (sha : Bytes → String) (sample_size : Nat) (fname : String)
      (cs : List Bytes) (st0 : UploadState),
      cs ≠ [] →
      ((run_upload renv sha sample_size cs.length fname st0 (enumChunks cs)).1.file
          = cs.flatten ∧
       ∃ row : DatasetRow,
         (run_upload renv sha sample_size cs.length fname st0 (enumChunks cs)).2.getLast?
           = some (some row) ∧
         row.sha256 = sha (get_file_identifier_input cs.flatten sample_size)) := by
  intro renv sha n fname cs st0 hne
  obtain ⟨front, c, hcs⟩ : ∃ front c, cs = front ++ [c] :=
    ⟨cs.dropLast, cs.getLast hne, (List.dropLast_append_getLast hne).symm⟩
  subst hcs
  have htotal : (front ++ [c]).length = front.length + 1 := by simp
  have htm1 : (front ++ [c]).length - 1 = front.length := by simp
  have henum : enumChunks (front ++ [c])
      = (List.range front.length).zip front ++ [(front.length, c)] := by
    unfold enumChunks
    rw [htotal, List.range_succ, List.zip_append (by simp)]
    simp
  by_cases hfront : front = []
  · subst hfront
    refine ⟨by simp [run_upload, upload_geotiff_chunk, enumChunks,
        create_initial_dataset_entry], ?_⟩
    refine ⟨⟨fname, sha (get_file_identifier_input c n),
        get_transformed_bounds renv c, .uploaded, c.length⟩, ?_, ?_⟩
    · simp [run_upload, upload_geotiff_chunk, enumChunks, create_initial_dataset_entry]
    · simp
  · have hfe : front.isEmpty = false := by
      cases front with
      | nil => exact absurd rfl hfront
      | cons a t => rfl
    have hm0 : (front.length == 0) = false := by
      cases front with
      | nil => exact absurd rfl hfront
      | cons a t => rfl
    have hfrontidx : ∀ p ∈ (List.range front.length).zip front,
        (p.1 == (front ++ [c]).length - 1) = false := by
      intro p hp
      have h1 : p.1 ∈ List.range front.length := by
        rcases p with ⟨i, b⟩
        exact (List.of_mem_zip hp).1
      have h2 : p.1 < front.length := List.mem_range.mp h1
      rw [htm1]
      simpa using Nat.ne_of_lt h2
    rw [henum, run_upload_append,
      run_upload_no_final renv sha n ((front ++ [c]).length) fname
        ((List.range front.length).zip front) st0 hfrontidx]
    rw [writeFold_enum front st0.file, hfe]
    simp only [Bool.false_eq_true, if_false]
    refine ⟨?_, ?_⟩
    · simp [run_upload, upload_geotiff_chunk, htm1, hm0, create_initial_dataset_entry,
        List.flatten_append]
    · refine ⟨⟨fname, sha (get_file_identifier_input (front.flatten ++ c) n),
        get_transformed_bounds renv (front.flatten ++ c), .uploaded,
        (front.flatten ++ c).length⟩, ?_, ?_⟩
      · simp [run_upload, upload_geotiff_chunk, htm1, hm0, create_initial_dataset_entry,
          List.getLast?_concat]
      · simp [List.flatten_append]

/-- Claim C7, witness: a three-byte file uploaded in two chunks. -/
theorem chunk_reassembly_witness :
    (run_upload sampleRaster sampleSha 10 ([[1, 2], [3]] : List Bytes).length "f.tif"
        ⟨[], []⟩ (enumChunks [[1, 2], [3]])).1.file = ([[1, 2], [3]] : List Bytes).flatten ∧
    ∃ row : DatasetRow,
      (run_upload sampleRaster sampleSha 10 ([[1, 2], [3]] : List Bytes).length "f.tif"
          ⟨[], []⟩ (enumChunks [[1, 2], [3]])).2.getLast? = some (some row) ∧
      row.sha256 = sampleSha (get_file_identifier_input ([[1, 2], [3]] : List Bytes).flatten 10) :=
  chunk_reassembly sampleRaster sampleSha 10 "f.tif" [[1, 2], [3]] ⟨[], []⟩ (by decide)

/-- Claim C8 (code bug): a finalized upload whose file has no embedded CRS
does **not** fail — `get_transformed_bounds` swallows the error and returns
`None`, and the final chunk still creates a dataset record with `status =
uploaded` and a null bounding box, which the spec forbids.  Evaluated at a
concrete two-chunk upload of a CRS-less file. -/
theorem no_crs_upload_reaches_uploaded :
    get_transformed_bounds noCrsRaster [1, 2, 3] = none ∧
    (run_upload noCrsRaster constSha 10 2 "f.tif" ⟨[], []⟩
        (enumChunks [[1, 2], [3]])).2.getLast?
      = some (some ⟨"f.tif", "h", none, Status.uploaded, 3⟩) ∧
    (⟨"f.tif", "h", none, Status.uploaded, 3⟩ : DatasetRow) ∈
      (run_upload noCrsRaster constSha 10 2 "f.tif" ⟨[], []⟩
        (enumChunks [[1, 2], [3]])).1.datasets := by decide

/-! ## Claim about the create-processing-task endpoint -/

/-- Claim C9: a create-task request that passes authentication, finds the
dataset, and inserts the queue row returns the queued task: with the position
and estimated wait time of the position-view row for the new task id when one
exists (a null estimated time defaulting to `0`), and with
`current_position = -1` and `estimated_time = 0` when the view has no row for
the id yet. -/
theorem create_task_position_or_default :
    ∀ (env : CreateEnv) (dataset_id : Nat),
      env.tokenOk = true → env.fetchOk = true → env.datasetFound = true →
      env.insertOk = true → env.posFetchOk = true →
      ((∀ row, env.positionRow = some row →
        create_processing_task env dataset_id
          = .task ⟨env.newTaskId, dataset_id, row.current_position,
              row.estimated_time.getD 0, false, 2⟩) ∧
       (env.positionRow = none →
        create_processing_task env dataset_id
          = .task ⟨env.newTaskId, dataset_id, -1, 0, false, 2⟩)) := by
  intro env did h1 h2 h3 h4 h5
  constructor
  · intro row hrow
    simp [create_processing_task, h1, h2, h3, h4, h5, hrow]
  · intro hrow
    simp [create_processing_task, h1, h2, h3, h4, h5, hrow]

/-- Claim C9, witness: one request whose position view has a row (with a null
estimated time, defaulted to 0), and one whose view has no row yet. -/
theorem create_task_position_or_default_witness :
    (create_processing_task ⟨true, true, true, true, true, some ⟨3, none⟩, 11⟩ 5
      = .task ⟨11, 5, 3, 0, false, 2⟩) ∧
    (create_processing_task ⟨true, true, true, true, true, none, 12⟩ 5
      = .task ⟨12, 5, -1, 0, false, 2⟩) :=
  ⟨(create_task_position_or_default ⟨true, true, true, true, true, some ⟨3, none⟩, 11⟩ 5
      rfl rfl rfl rfl rfl).1 ⟨3, none⟩ rfl,
   (create_task_position_or_default ⟨true, true, true, true, true, none, 12⟩ 5
      rfl rfl rfl rfl rfl).2 rfl⟩
